import Mathlib

/-!
# Verification of the moly.hu calibre metadata-source plugin

Shallow embedding of the plugin's core pipeline:

* `json.py`  — the structured response decoder (`JsonObject` accessors),
* `api.py`   — the remote-service gateway (`Client.fetch_*`, `fetch_multiple`),
* `__init__.py` — the identity & aggregation engine (`Moth` methods).

Remote HTTP responses are modelled by an oracle (`Remote`) mapping each
endpoint's input to the decoded payload (`none` = transport failure, which the
gateway logs and treats as an absent response).  Python exceptions are
modelled by `Except PyErr`; a worker thread that dies on an exception is
modelled by discarding the error and keeping the writes it made so far.
-/

/-- Python exceptions raised by the plugin.  `lookupError` models `LookupError`
(the missing-field condition), `jsonError` models `exceptions.JsonError`
(the type-mismatch condition), `aborted` models `exceptions.Aborted`. -/
inductive PyErr where
  | lookupError (msg : String)
  | jsonError (msg : String)
  | aborted
  deriving DecidableEq

/-- A decoded JSON value, as produced by Python's `json.load`: `None`, `bool`,
`int`, `float` (carried as a rational), `str`, `list` or `dict`. -/
inductive JsonValue where
  | null
  | bool (b : Bool)
  | int (n : Int)
  | float (q : Rat)
  | str (s : String)
  | list (xs : List JsonValue)
  | obj (fields : List (String × JsonValue))

/-- A validated JSON object (`json.JsonObject` wraps a `dict`); modelled as the
association list of its fields (Python dicts have unique keys and preserve
insertion order). -/
abbrev JsonObject := List (String × JsonValue)

/-- First-match association-list lookup (Python `dict.get` on a dict with
unique keys). -/
def assocLookup {α : Type} (l : List (String × α)) (key : String) : Option α :=
  match l with
  | [] => none
  | (k, v) :: rest => if k = key then some v else assocLookup rest key

/-- `self._object.get(key)` followed by the accessors' `value is None` test:
a missing key and a key bound to JSON `null` are indistinguishable to the
accessors, so both are mapped to `none`. -/
def dictGet (o : JsonObject) (key : String) : Option JsonValue :=
  match assocLookup o key with
  | none => none
  | some .null => none
  | some v => some v

/-- `JsonObject.__init__`: accepts only a `dict` value, otherwise raises
`JsonError("The JSON value is not an object")`. -/
def mkJsonObject (v : JsonValue) : Except PyErr JsonObject :=
  match v with
  | .obj fields => .ok fields
  | _ => .error (.jsonError "The JSON value is not an object")

/-- The element-wise `JsonObject(value)` conversion inside
`JsonObject.get_list`'s list comprehension. -/
def toJsonObjects (vs : List JsonValue) : Except PyErr (List JsonObject) :=
  match vs with
  | [] => .ok []
  | v :: rest =>
    match mkJsonObject v with
    | .error e => .error e
    | .ok o =>
      match toJsonObjects rest with
      | .error e => .error e
      | .ok os => .ok (o :: os)

/-- `JsonObject.get_object`. -/
def getObject (o : JsonObject) (key : String) : Except PyErr JsonObject :=
  match dictGet o key with
  | none => .error (.lookupError ("Cannot find \"" ++ key ++ "\""))
  | some (.obj fields) => .ok fields
  | some _ => .error (.jsonError ("\"" ++ key ++ "\" is not an object"))

/-- `JsonObject.get_list`. -/
def getList (o : JsonObject) (key : String) : Except PyErr (List JsonObject) :=
  match dictGet o key with
  | none => .error (.lookupError ("Cannot find \"" ++ key ++ "\""))
  | some (.list vs) => toJsonObjects vs
  | some _ => .error (.jsonError ("\"" ++ key ++ "\" is not a list"))

/-- `JsonObject.get_optional_int`.  Python's `isinstance(value, int)` is also
true for `bool` (`bool` is a subtype of `int`), so a boolean is accepted and
coerced to `0`/`1`. -/
def getOptionalInt (o : JsonObject) (key : String) : Except PyErr (Option Int) :=
  match dictGet o key with
  | none => .ok none
  | some (.int n) => .ok (some n)
  | some (.bool b) => .ok (some (if b then 1 else 0))
  | some _ => .error (.jsonError ("\"" ++ key ++ "\" is not an integer"))

/-- `JsonObject.get_int`. -/
def getInt (o : JsonObject) (key : String) : Except PyErr Int :=
  match getOptionalInt o key with
  | .error e => .error e
  | .ok none => .error (.lookupError ("Cannot find \"" ++ key ++ "\""))
  | .ok (some n) => .ok n

/-- `JsonObject.get_float`.  Note: on a present value that is not a `float`
the source raises `LookupError("... is not an integer")` — not `JsonError` —
unlike every sibling accessor (`isinstance(True, float)` is false in Python,
so booleans also take this branch). -/
def getFloat (o : JsonObject) (key : String) : Except PyErr Rat :=
  match dictGet o key with
  | none => .error (.lookupError ("Cannot find \"" ++ key ++ "\""))
  | some (.float q) => .ok q
  | some _ => .error (.lookupError ("\"" ++ key ++ "\" is not an integer"))

/-- `JsonObject.get_optional_str`. -/
def getOptionalStr (o : JsonObject) (key : String) : Except PyErr (Option String) :=
  match dictGet o key with
  | none => .ok none
  | some (.str s) => .ok (some s)
  | some _ => .error (.jsonError ("\"" ++ key ++ "\" is not a string"))

/-- `JsonObject.get_str`. -/
def getStr (o : JsonObject) (key : String) : Except PyErr String :=
  match getOptionalStr o key with
  | .error e => .error e
  | .ok none => .error (.lookupError ("Cannot find \"" ++ key ++ "\""))
  | .ok (some s) => .ok s

/-- C3: For every accessor, a required-but-absent key fails with the
MissingField condition (`LookupError`), and a present-but-wrongly-shaped value
fails with the distinct TypeMismatch condition (`JsonError`) — claimed to hold
uniformly across the object, list, integer, float and string accessors.  The
float accessor violates this: on the payload `{"like_average": "x"}` the key
is present with a wrongly-shaped value, yet `get_float` raises `LookupError`
(the missing-field condition, with the mislabelled message
"... is not an integer") instead of `JsonError`, unlike the sibling accessors
shown for contrast. -/
theorem C3_getFloat_raises_missing_field_on_type_mismatch :
    getFloat [("like_average", JsonValue.str "x")] "like_average"
      = .error (.lookupError "\"like_average\" is not an integer")
    ∧ getFloat [("like_average", JsonValue.int 4)] "like_average"
      = .error (.lookupError "\"like_average\" is not an integer")
    ∧ getStr [("title", JsonValue.int 3)] "title"
      = .error (.jsonError "\"title\" is not a string")
    ∧ getObject [("book", JsonValue.int 3)] "book"
      = .error (.jsonError "\"book\" is not an object")
    ∧ getList [("books", JsonValue.int 3)] "books"
      = .error (.jsonError "\"books\" is not a list")
    ∧ getFloat ([] : JsonObject) "like_average"
      = .error (.lookupError "Cannot find \"like_average\"") := by
  refine ⟨rfl, rfl, rfl, rfl, rfl, rfl⟩

/-! ## Relevance-keyed result maps

`request.metadatas` and `request.cover_urls` are Python dicts with integer
relevance keys.  They are modelled as association lists in insertion order;
assignment to an existing key replaces it in place, assignment to a fresh key
appends (Python dict semantics). -/

/-- A Python dict with `Nat` relevance keys, in insertion order. -/
abbrev Dict (α : Type) := List (Nat × α)

/-- The empty result map. -/
def emptyDict {α : Type} : Dict α := []

/-- `d[k] = v` on a Python dict: replace in place if the key exists, else
append. -/
def dictInsert {α : Type} (d : Dict α) (k : Nat) (v : α) : Dict α :=
  if d.any (fun p => p.1 = k) then
    d.map (fun p => if p.1 = k then (k, v) else p)
  else d ++ [(k, v)]

/-- The keys of a result map, in insertion order. -/
def dictKeys {α : Type} (d : Dict α) : List Nat := d.map (fun p => p.1)

/-- Comparison of dict items by relevance key. -/
def keyLE {α : Type} (a b : Nat × α) : Prop := a.1 ≤ b.1

instance {α : Type} : DecidableRel (keyLE (α := α)) :=
  fun a b => Nat.decLe a.1 b.1

instance {α : Type} : IsTotal (Nat × α) keyLE :=
  ⟨fun a b => Nat.le_total a.1 b.1⟩

instance {α : Type} : IsTrans (Nat × α) keyLE :=
  ⟨fun _ _ _ h1 h2 => Nat.le_trans h1 h2⟩

/-- `sorted(d.items())`: the items of the map in ascending key order (the keys
are pairwise distinct in every run, so tuple comparison never reaches the
values). -/
def sortedItems {α : Type} (d : Dict α) : List (Nat × α) :=
  List.insertionSort keyLE d

/-! ## Series data (`parsers.Series`) and pure helpers of `Moth` -/

/-- `parsers.Series`: one series membership scraped from the book's HTML page.
The fractional index is carried as a rational. -/
structure Series where
  series : String
  seriesIndex : Rat
  url : String
  deriving DecidableEq

/-- `'\r'` or `'\n'` — the character class `[\r\n]` of `Moth._fix_comments`. -/
def isLineBreak (c : Char) : Bool := c = '\r' || c = '\n'

/-- A character matched by the pattern `" *([\r\n]+) *"` of
`Moth._fix_comments`. -/
def isSpaceOrBreak (c : Char) : Bool := c = ' ' || isLineBreak c

theorem dropWhileLengthLe {α : Type} (p : α → Bool) (l : List α) :
    (l.dropWhile p).length ≤ l.length := by
  induction l with
  | nil => simp [List.dropWhile]
  | cons c rest ih =>
    by_cases h : p c
    · simp only [List.dropWhile, h]
      exact Nat.le_succ_of_le ih
    · simp [List.dropWhile, h]

/-- `re.sub(r" *([\r\n]+) *", r"\1", comments)` on the character list: within
every maximal run of spaces/line-breaks that contains at least one line break,
the chained non-overlapping matches of the pattern consume the whole run and
keep exactly its line-break characters; a run of spaces with no line break is
left unchanged. -/
def fixCommentsList (l : List Char) : List Char :=
  match l with
  | [] => []
  | c :: rest =>
    if h : isSpaceOrBreak c then
      let run := (c :: rest).takeWhile isSpaceOrBreak
      let rest2 := (c :: rest).dropWhile isSpaceOrBreak
      (if run.any isLineBreak then run.filter isLineBreak else run)
        ++ fixCommentsList rest2
    else
      c :: fixCommentsList rest
termination_by l.length
decreasing_by
  · simp only [List.dropWhile, h]
    exact Nat.lt_succ_of_le (dropWhileLengthLe isSpaceOrBreak rest)
  · simp

/-- `Moth._fix_comments`: collapse spaces around line-break runs. -/
def fixComments (comments : String) : String :=
  ⟨fixCommentsList comments.data⟩

/-- Zero-pad a decimal digit string on the left to 6 digits. -/
def padSixDigits (s : String) : String :=
  ⟨List.replicate (6 - s.length) '0'⟩ ++ s

/-- Python `"%f" % x`: fixed-point formatting with six decimals (rounding to
nearest, modelled on the rational carried for the float). -/
def formatFloat6 (q : Rat) : String :=
  let m : Int := round (q * 1000000)
  let sign := if m < 0 then "-" else ""
  let a := m.natAbs
  sign ++ toString (a / 1000000) ++ "." ++ padSixDigits (toString (a % 1000000))

/-- `Moth._add_subseries`: all series entries after the primary one are listed
as `Subseries: name [index]` lines, joined with `"\r\n"`, and the separator
`"\r\n"` is prepended to the comment unconditionally. -/
def addSubseries (bookSeries : List Series) (comment : String) : String :=
  let subseries := (bookSeries.drop 1).map
    (fun s => "Subseries: " ++ s.series ++ " [" ++ formatFloat6 s.seriesIndex ++ "]")
  String.intercalate "\r\n" subseries ++ "\r\n" ++ comment

/-- `Moth._is_language_tag`. -/
def isLanguageTag (tag : String) : Bool := tag.endsWith " nyelvű"

/-- Lower-casing as Python's `str.lower` does on the letters that occur in the
language-marker table (ASCII plus the accented Hungarian capitals). -/
def pyLowerChar (c : Char) : Char :=
  if c = 'Á' then 'á' else if c = 'É' then 'é' else if c = 'Í' then 'í'
  else if c = 'Ó' then 'ó' else if c = 'Ö' then 'ö' else if c = 'Ő' then 'ő'
  else if c = 'Ú' then 'ú' else if c = 'Ü' then 'ü' else if c = 'Ű' then 'ű'
  else c.toLower

/-- Python `str.lower()` (restricted as in `pyLowerChar`). -/
def pyLower (s : String) : String := s.map pyLowerChar

/-- The fixed language-marker table of `Moth._get_language`. -/
def languageTags : List (String × String) :=
  [("kínai nyelvű", "cn"), ("német nyelvű", "de"), ("angol nyelvű", "en"),
   ("spanyol nyelvű", "es"), ("francia nyelvű", "fr"), ("görög nyelvű", "gr"),
   ("magyar nyelvű", "hu"), ("olasz nyelvű", "it"), ("japán nyelvű", "jp"),
   ("orosz nyelvű", "ru"), ("török nyelvű", "tr")]

/-- `Moth._get_language` (the debug log on an unknown marker tag is a
no-op here). -/
def getLanguage (tag : String) : Option String :=
  assocLookup languageTags ((pyLower tag).trim)

/-- `Moth._get_languages`: collect recognized markers, defaulting to `["hu"]`
when none matched. -/
def getLanguages (tags : List String) : List String :=
  let languages := tags.filterMap getLanguage
  if languages.isEmpty then ["hu"] else languages

/-- calibre's `Metadata.set_identifier` (external collaborator): an empty
value removes the identifier, otherwise it is replaced or appended. -/
def setIdentifier (identifiers : List (String × String)) (key v : String) :
    List (String × String) :=
  if v = "" then identifiers.filter (fun p => p.1 ≠ key)
  else if identifiers.any (fun p => p.1 = key) then
    identifiers.map (fun p => if p.1 = key then (key, v) else p)
  else identifiers ++ [(key, v)]

/-- Python `int(...)` on the decimal strings this plugin feeds it (identifier
values produced by `str(int)`); the conversion never fails on those. -/
def pyInt (s : String) : Int := (s.toInt?).getD 0

/-- `Moth._get_book_edition_id`: the `"moly-edition"` identifier parsed as an
integer, when present. -/
def getBookEditionId (identifiers : List (String × String)) : Option Int :=
  match assocLookup identifiers "moly-edition" with
  | none => none
  | some s => some (pyInt s)

/-! ## Metadata records (`calibre.ebooks.metadata.book.base.Metadata` surface
used by the plugin) -/

/-- The fields of the calibre `Metadata` record that `Moth._add_metadata`
fills in.  `pubdate` is represented by its year (the source stores the 1st of
January of that year); the host identifier-cache registration
(`cache_isbn_to_identifier` / `cache_identifier_to_cover_url`) is an external
side effect and is reflected only in `hasCachedCoverUrl`. -/
structure Metadata where
  title : String
  authors : List String
  comments : String
  languages : List String
  pubdate : Option Int
  publisher : String
  rating : Rat
  series : Option String
  seriesIndex : Option Rat
  tags : List String
  identifiers : List (String × String)
  hasCachedCoverUrl : Bool
  sourceRelevance : Nat
  deriving DecidableEq

/-- The `[json_object.get_str("name") for json_object in json_objects]`
comprehension of `Moth._get_names`. -/
def namesOf (objs : List JsonObject) : Except PyErr (List String) :=
  match objs with
  | [] => .ok []
  | o :: rest =>
    match getStr o "name" with
    | .error e => .error e
    | .ok n =>
      match namesOf rest with
      | .error e => .error e
      | .ok ns => .ok (n :: ns)

/-- `Moth._get_names` (its `if json_objects is None` test is dead code:
`get_list` raises rather than returning `None`). -/
def getNames (book : JsonObject) (key : String) : Except PyErr (List String) :=
  match getList book key with
  | .error e => .error e
  | .ok objs => namesOf objs

/-- `Moth._add_metadata` without the final dict store: build the metadata
record for one edition.  Getter calls appear in source order, so the first
failing accessor determines the propagated exception. -/
def buildMetadata (book : JsonObject) (bookSeries : List Series)
    (bookEdition : JsonObject) (relevance : Nat) : Except PyErr Metadata :=
  match getInt book "id" with
  | .error e => .error e
  | .ok bookId =>
  match getInt bookEdition "id" with
  | .error e => .error e
  | .ok bookEditionId =>
  match getNames book "tags" with
  | .error e => .error e
  | .ok tags =>
  match getStr book "title" with
  | .error e => .error e
  | .ok title =>
  match getNames book "authors" with
  | .error e => .error e
  | .ok authors =>
  match getStr book "description" with
  | .error e => .error e
  | .ok description =>
  match getOptionalInt bookEdition "year" with
  | .error e => .error e
  | .ok year =>
  match getStr bookEdition "publisher" with
  | .error e => .error e
  | .ok publisher =>
  match getFloat book "like_average" with
  | .error e => .error e
  | .ok rating =>
  match getStr bookEdition "isbn" with
  | .error e => .error e
  | .ok isbn =>
  match getOptionalStr bookEdition "cover" with
  | .error e => .error e
  | .ok coverUrl =>
    .ok {
      title := title
      authors := authors
      comments := addSubseries bookSeries (fixComments description)
      languages := getLanguages tags
      pubdate := year
      publisher := publisher
      rating := rating
      series := bookSeries.head?.map (fun s => s.series)
      seriesIndex := bookSeries.head?.map (fun s => s.seriesIndex)
      tags := tags.filter (fun t => !isLanguageTag t)
      identifiers :=
        setIdentifier (setIdentifier (setIdentifier [] "isbn" isbn)
          "moly" (toString bookId)) "moly-edition" (toString bookEditionId)
      hasCachedCoverUrl := coverUrl.isSome
      sourceRelevance := relevance
    }

/-- `Moth._add_metadata`: build the record and store it under its relevance
key in the shared map. -/
def addMetadata (metadatas : Dict Metadata) (book : JsonObject)
    (bookSeries : List Series) (bookEdition : JsonObject) (relevance : Nat) :
    Except PyErr (Dict Metadata) :=
  match buildMetadata book bookSeries bookEdition relevance with
  | .error e => .error e
  | .ok m => .ok (dictInsert metadatas relevance m)

/-- `Moth._add_metadatas`: one record per edition, at consecutive relevance
keys counted from `relevance` (`itertools.count`).  Each record is stored as
soon as it is built, so an exception on a later edition keeps the earlier
stores; the error (if any) is returned alongside the map. -/
def addMetadatas (metadatas : Dict Metadata) (book : JsonObject)
    (bookSeries : List Series) (bookEditions : List JsonObject)
    (relevance : Nat) : Dict Metadata × Option PyErr :=
  match bookEditions with
  | [] => (metadatas, none)
  | e :: rest =>
    match addMetadata metadatas book bookSeries e relevance with
    | .error err => (metadatas, some err)
    | .ok metadatas1 => addMetadatas metadatas1 book bookSeries rest (relevance + 1)

/-! ## Identifier filters (`Moth._match_identifiers*`, `Moth._filter_*`) -/

/-- `Moth._match_identifiers_strict`: (preferred edition id unset OR equal)
AND (preferred ISBN unset OR equal). -/
def matchIdentifiersStrict (bookEditionId : Option Int) (isbn : Option String)
    (preferredBookEditionId : Option Int) (preferredIsbn : Option String) : Bool :=
  (preferredBookEditionId.isNone || preferredBookEditionId == bookEditionId) &&
  (preferredIsbn.isNone || preferredIsbn == isbn)

/-- `Moth._match_identifiers` (the loose tier): (preferred edition id unset OR
equal) OR (preferred ISBN unset OR equal). -/
def matchIdentifiers (bookEditionId : Option Int) (isbn : Option String)
    (preferredBookEditionId : Option Int) (preferredIsbn : Option String) : Bool :=
  (preferredBookEditionId.isNone || preferredBookEditionId == bookEditionId) ||
  (preferredIsbn.isNone || preferredIsbn == isbn)

/-- The identifier fields the filters read back from a stored record:
`Moth._get_book_edition_id(metadata.get_identifiers())` and
`identifiers.get("isbn")`. -/
def metadataBookEditionId (m : Metadata) : Option Int :=
  getBookEditionId m.identifiers

def metadataIsbn (m : Metadata) : Option String :=
  assocLookup m.identifiers "isbn"

/-- The `for _, metadata in sorted(...): if pred: append` loop shared by the
filter functions. -/
def filterLoop {α : Type} (pred : α → Bool) (items : List (Nat × α)) : List α :=
  match items with
  | [] => []
  | (_, m) :: rest => if pred m then m :: filterLoop pred rest else filterLoop pred rest

/-- `Moth._filter_metadatas_strictly`. -/
def filterMetadatasStrictly (metadatas : Dict Metadata)
    (preferredBookEditionId : Option Int) (preferredIsbn : Option String) :
    List Metadata :=
  filterLoop
    (fun m => matchIdentifiersStrict (metadataBookEditionId m) (metadataIsbn m)
      preferredBookEditionId preferredIsbn)
    (sortedItems metadatas)

/-- `Moth._filter_metadatas` (the loose tier). -/
def filterMetadatas (metadatas : Dict Metadata)
    (preferredBookEditionId : Option Int) (preferredIsbn : Option String) :
    List Metadata :=
  filterLoop
    (fun m => matchIdentifiers (metadataBookEditionId m) (metadataIsbn m)
      preferredBookEditionId preferredIsbn)
    (sortedItems metadatas)

/-- `Moth._list_metadatas` (the unfiltered tier). -/
def listMetadatas (metadatas : Dict Metadata) : List Metadata :=
  (sortedItems metadatas).map (fun p => p.2)

/-! ## Cover URLs (`Moth._get_big_cover_url`, `Moth._add_cover_urls`,
`Moth._filter_cover_urls*`) -/

/-- `CoverUrl`: the data held for one cover-URL candidate. -/
structure CoverUrl where
  bookId : Int
  bookEditionId : Int
  isbn : String
  url : String
  deriving DecidableEq

/-- Drop `p` from the front of `l` when `p` is a prefix of `l`, returning the
remainder. -/
def stripFront : List Char → List Char → Option (List Char)
  | [], l => some l
  | _ :: _, [] => none
  | p :: ps, c :: cs => if p = c then stripFront ps cs else none

theorem stripFrontLength :
    ∀ (p l r : List Char), stripFront p l = some r → r.length + p.length = l.length := by
  intro p
  induction p with
  | nil =>
    intro l r h
    simp only [stripFront, Option.some_inj] at h
    simp [h]
  | cons p0 ps ih =>
    intro l r h
    cases l with
    | nil => simp [stripFront] at h
    | cons c cs =>
      simp only [stripFront] at h
      by_cases hc : p0 = c
      · rw [if_pos hc] at h
        have := ih cs r h
        simp only [List.length_cons]
        omega
      · rw [if_neg hc] at h
        exact absurd h (by simp)

/-- Python `str.replace` on character lists, for a non-empty pattern
`p0 :: ps`: scan left to right, replacing each non-overlapping occurrence of
the pattern with `repl` and continuing after it. -/
def replaceGo (p0 : Char) (ps repl l : List Char) : List Char :=
  match l with
  | [] => []
  | c :: rest =>
    match h : stripFront (p0 :: ps) (c :: rest) with
    | some rest2 => repl ++ replaceGo p0 ps repl rest2
    | none => c :: replaceGo p0 ps repl rest
termination_by l.length
decreasing_by
  · have hl := stripFrontLength (p0 :: ps) (c :: rest) rest2 h
    simp only [List.length_cons] at hl ⊢
    omega
  · simp

/-- Python `str.replace` (the empty pattern never occurs in this code base). -/
def pyReplace (s pattern repl : String) : String :=
  match pattern.data with
  | [] => s
  | p0 :: ps => ⟨replaceGo p0 ps repl.data s.data⟩

/-- `Moth._get_big_cover_url`: rewrite `/normal/` to `/big/` (every
occurrence, as Python `str.replace`). -/
def getBigCoverUrl (coverUrl : String) : String :=
  pyReplace coverUrl "/normal/" "/big/"

/-- Python `book_edition.get_optional_str("cover") or book_cover_url`: the
fallback to the book's cover triggers on any falsy value of the edition's
cover — `None` or the empty string. -/
def chooseCover (editionCover bookCover : Option String) : Option String :=
  match editionCover with
  | some s => if s = "" then bookCover else some s
  | none => bookCover

/-- `Moth._add_cover_url`: store one cover-URL candidate under its relevance
key. -/
def addCoverUrl (coverUrls : Dict CoverUrl) (bookId : Int)
    (bookEdition : JsonObject) (coverUrl : String) (relevance : Nat) :
    Except PyErr (Dict CoverUrl) :=
  match getInt bookEdition "id" with
  | .error e => .error e
  | .ok bookEditionId =>
  match getStr bookEdition "isbn" with
  | .error e => .error e
  | .ok isbn =>
    .ok (dictInsert coverUrls relevance
      { bookId := bookId, bookEditionId := bookEditionId, isbn := isbn, url := coverUrl })

/-- The edition loop of `Moth._add_cover_urls`, with the running
`itertools.count` value.  Stores happen as soon as each candidate is built, so
an exception keeps the earlier stores. -/
def addCoverUrlsLoop (coverUrls : Dict CoverUrl) (bookId : Int)
    (bookCoverUrl : Option String) (bookEditions : List JsonObject)
    (counter : Nat) : Dict CoverUrl × Option PyErr :=
  match bookEditions with
  | [] => (coverUrls, none)
  | e :: rest =>
    match getOptionalStr e "cover" with
    | .error err => (coverUrls, some err)
    | .ok editionCover =>
      match chooseCover editionCover bookCoverUrl with
      | none => addCoverUrlsLoop coverUrls bookId bookCoverUrl rest counter
      | some coverUrl =>
        match addCoverUrl coverUrls bookId e (getBigCoverUrl coverUrl) counter with
        | .error err => (coverUrls, some err)
        | .ok coverUrls1 =>
          match addCoverUrl coverUrls1 bookId e coverUrl (counter + 1) with
          | .error err => (coverUrls1, some err)
          | .ok coverUrls2 =>
            addCoverUrlsLoop coverUrls2 bookId bookCoverUrl rest (counter + 2)

/-- `Moth._add_cover_urls`: for each edition choose the edition's cover or
fall back to the book's, skip if the chosen value is `None`, otherwise emit
the big variant then the original at consecutive relevance keys. -/
def addCoverUrls (coverUrls : Dict CoverUrl) (book : JsonObject)
    (bookEditions : List JsonObject) (relevance : Nat) :
    Dict CoverUrl × Option PyErr :=
  match getInt book "id" with
  | .error e => (coverUrls, some e)
  | .ok bookId =>
  match getOptionalStr book "cover" with
  | .error e => (coverUrls, some e)
  | .ok bookCoverUrl => addCoverUrlsLoop coverUrls bookId bookCoverUrl bookEditions relevance

/-! ## Remote-service gateway (`api.Client`)

The HTTP layer is modelled by an oracle mapping each endpoint's input to the
decoded response payload; `none` models a transport failure, which `_fetch`
logs and converts to an absent response.  `_fetch` raises `Aborted` before
every network call when the cancellation event is set. -/

/-- The remote service's responses, one field per endpoint.  `seriesPage`
returns the result of scraping the book's HTML page with
`parsers.SeriesParser` (the scrape itself is not under verification here). -/
structure Remote where
  search : String → Option JsonValue
  bookByIsbn : String → Option JsonValue
  book : Int → Option JsonValue
  editions : Int → Option JsonValue
  seriesPage : String → Option (List Series)

/-- `api.Client`: the abort event (shared across clones) and the remote
oracle.  Timeout, API key and URL construction do not affect the verified
behaviour and are omitted. -/
structure Client where
  abortEvent : Bool
  remote : Remote

/-- `Client.fetch_search_results`: abort check, fetch, decode, extract
`"books"`; a transport failure yields `[]`. -/
def fetchSearchResults (c : Client) (query : String) :
    Except PyErr (List JsonObject) :=
  if c.abortEvent then .error .aborted
  else
    match c.remote.search query with
    | none => .ok []
    | some v =>
      match mkJsonObject v with
      | .error e => .error e
      | .ok o => getList o "books"

/-- `Client._fetch_book_id_by_isbn`: abort check, fetch, decode, extract
`"id"`. -/
def fetchBookIdByIsbn (c : Client) (isbn : String) : Except PyErr (Option Int) :=
  if c.abortEvent then .error .aborted
  else
    match c.remote.bookByIsbn isbn with
    | none => .ok none
    | some v =>
      match mkJsonObject v with
      | .error e => .error e
      | .ok o =>
        match getInt o "id" with
        | .error e => .error e
        | .ok n => .ok (some n)

/-- `Client.fetch_book`: abort check, fetch, decode, extract `"book"`. -/
def fetchBook (c : Client) (bookId : Int) : Except PyErr (Option JsonObject) :=
  if c.abortEvent then .error .aborted
  else
    match c.remote.book bookId with
    | none => .ok none
    | some v =>
      match mkJsonObject v with
      | .error e => .error e
      | .ok o =>
        match getObject o "book" with
        | .error e => .error e
        | .ok b => .ok (some b)

/-- `Client.fetch_book_editions`: abort check, fetch, decode, extract
`"editions"`; a transport failure yields `[]`. -/
def fetchBookEditions (c : Client) (bookId : Int) :
    Except PyErr (List JsonObject) :=
  if c.abortEvent then .error .aborted
  else
    match c.remote.editions bookId with
    | none => .ok []
    | some v =>
      match mkJsonObject v with
      | .error e => .error e
      | .ok o => getList o "editions"

/-- `Client.fetch_book_series`: read the book's `"url"` (its `if url is None`
test is dead code: `get_str` raises instead), abort check, fetch and scrape;
a transport failure yields `[]`. -/
def fetchBookSeries (c : Client) (book : JsonObject) :
    Except PyErr (List Series) :=
  match getStr book "url" with
  | .error e => .error e
  | .ok url =>
    if c.abortEvent then .error .aborted
    else
      match c.remote.seriesPage url with
      | none => .ok []
      | some ss => .ok ss

/-- `Client.fetch_book_ids`: the direct `"moly"` identifier first; then, when
an ISBN is present and resolves to an id whose decimal string differs from
the `"moly"` value, that id is appended.  (`str(book_id_by_isbn) != book_id`
compares against `None` — hence always true — when `"moly"` is absent.) -/
def fetchBookIds (c : Client) (identifiers : List (String × String)) :
    Except PyErr (List Int) :=
  let bookIdStr := assocLookup identifiers "moly"
  let bookIds := match bookIdStr with
    | some s => [pyInt s]
    | none => []
  match assocLookup identifiers "isbn" with
  | none => .ok bookIds
  | some isbn =>
    match fetchBookIdByIsbn c isbn with
    | .error e => .error e
    | .ok none => .ok bookIds
    | .ok (some b) =>
      let differs : Bool := match bookIdStr with
        | some s => toString b ≠ s
        | none => true
      .ok (if differs then bookIds ++ [b] else bookIds)

/-! ## Search-query generation and free-text search (`Moth._get_search_queries`,
`Moth._search_book_ids`)

The title/author tokenizer is an external collaborator
(`Source.get_title_tokens` / `get_author_tokens`); the token lists — and the
subtitle-stripped title tokens — are inputs of the request model. -/

/-- The inputs of one identify request: the tokenized title/authors (plus the
subtitle-stripped variant of the title tokens) and the known identifiers. -/
structure ReqInput where
  titleTokens : List String
  authorTokens : List String
  strippedTitleTokens : List String
  identifiers : List (String × String)

/-- `Moth._get_search_queries`: title+author tokens, title tokens alone, and —
only when stripping the subtitle changed the title tokens — the same two
combinations with the stripped tokens (guarded, as in the source, by the
unstripped `title_tokens`). -/
def getSearchQueries (titleTokens authorTokens strippedTitleTokens : List String) :
    List String :=
  (if !titleTokens.isEmpty && !authorTokens.isEmpty then
      [String.intercalate " " (titleTokens ++ authorTokens)]
    else [])
  ++ (if !titleTokens.isEmpty then [String.intercalate " " titleTokens] else [])
  ++ (if strippedTitleTokens ≠ titleTokens then
        (if !titleTokens.isEmpty && !authorTokens.isEmpty then
            [String.intercalate " " (strippedTitleTokens ++ authorTokens)]
          else [])
        ++ (if !titleTokens.isEmpty then
              [String.intercalate " " strippedTitleTokens]
            else [])
      else [])

/-- The `[match.get_int("id") for match in matches]` comprehension of
`Moth._search_book_ids`. -/
def idsOf (results : List JsonObject) : Except PyErr (List Int) :=
  match results with
  | [] => .ok []
  | m :: rest =>
    match getInt m "id" with
    | .error e => .error e
    | .ok i =>
      match idsOf rest with
      | .error e => .error e
      | .ok is_ => .ok (i :: is_)

/-- The query loop of `Moth._search_book_ids`: the first query whose result
set is non-empty wins; later queries are not evaluated. -/
def searchLoop (c : Client) (queries : List String) : Except PyErr (List Int) :=
  match queries with
  | [] => .ok []
  | q :: rest =>
    match fetchSearchResults c q with
    | .error e => .error e
    | .ok results =>
      if results.isEmpty then searchLoop c rest else idsOf results

/-- `Moth._search_book_ids`. -/
def searchBookIds (c : Client) (req : ReqInput) : Except PyErr (List Int) :=
  searchLoop c
    (getSearchQueries req.titleTokens req.authorTokens req.strippedTitleTokens)

/-! ## Metadata fan-out and the identify pipeline
(`Moth._fetch_and_add_metadata(s)`, `Client.fetch_multiple`, `Moth.identify`)

`fetch_multiple` starts one thread per candidate id; after each `start()` it
checks the shared abort event and raises `Aborted` if set, else sleeps one
stagger unit.  The model runs each worker's body at its start point (worker
bodies write to key ranges that are disjoint in every bounded run, so the
interleaving does not affect the final map — proved with the C1 theorem) and
returns the map, the number of workers started, and whether the stagger loop
raised `Aborted`.  A worker whose body raises dies silently, keeping the
writes it made so far. -/

/-- `Moth._fetch_and_add_metadata`: the worker body for candidate `bookId` at
rank `relevance`.  The cloned request shares `metadatas` and the abort event;
an exception ends the worker, keeping earlier writes. -/
def fetchAndAddMetadata (c : Client) (metadatas : Dict Metadata)
    (bookId : Int) (relevance : Nat) : Dict Metadata :=
  match fetchBook c bookId with
  | .error _ => metadatas
  | .ok none => metadatas
  | .ok (some book) =>
    match fetchBookSeries c book with
    | .error _ => metadatas
    | .ok bookSeries =>
      match fetchBookEditions c bookId with
      | .error _ => metadatas
      | .ok bookEditions =>
        (addMetadatas metadatas book bookSeries bookEditions (100 * relevance)).1

/-- The start/stagger loop of `Client.fetch_multiple` over the enumerated
candidate ids: start a worker, then — with the abort event set — raise
`Aborted` before starting the next one.  Returns the final map, how many
workers were started, and whether `Aborted` was raised. -/
def fetchMultipleLoop (c : Client) (metadatas : Dict Metadata) :
    List (Nat × Int) → Dict Metadata × Nat × Bool
  | [] => (metadatas, 0, false)
  | (relevance, bookId) :: rest =>
    let metadatas1 := fetchAndAddMetadata c metadatas bookId relevance
    if c.abortEvent then (metadatas1, 1, true)
    else
      let (metadatas2, n, ab) := fetchMultipleLoop c metadatas1 rest
      (metadatas2, n + 1, ab)

/-- `Moth._fetch_and_add_metadatas`: one worker per candidate id, rank =
`enumerate` index. -/
def fetchAndAddMetadatas (c : Client) (bookIds : List Int) :
    Dict Metadata × Nat × Bool :=
  fetchMultipleLoop c emptyDict bookIds.enum

/-- The user-facing messages of `Moth` (`_("No matches found")`,
`_("Aborted")`). -/
def noMatchesMessage : String := "No matches found"

def abortedMessage : String := "Aborted"

/-- `Moth._search_and_download_metadatas`: resolve candidate ids (direct
identifiers first, free-text search second), fan out, then the
strict → loose → unfiltered filter cascade; the surviving records are pushed
to the result sink in order.  The second component counts workers started by
the fan-out. -/
def searchAndDownloadMetadatas (c : Client) (req : ReqInput) :
    Except PyErr (Option String × List Metadata) × Nat :=
  match fetchBookIds c req.identifiers with
  | .error e => (.error e, 0)
  | .ok bookIds0 =>
    match (if bookIds0.isEmpty then searchBookIds c req else .ok bookIds0) with
    | .error e => (.error e, 0)
    | .ok bookIds =>
      if bookIds.isEmpty then (.ok (some noMatchesMessage, []), 0)
      else
        let (metadatas, n, ab) := fetchAndAddMetadatas c bookIds
        if ab then (.error .aborted, n)
        else
          let bookEditionId := getBookEditionId req.identifiers
          let isbn := assocLookup req.identifiers "isbn"
          let ms0 := filterMetadatasStrictly metadatas bookEditionId isbn
          let ms1 := if ms0.isEmpty then filterMetadatas metadatas bookEditionId isbn else ms0
          let ms2 := if ms1.isEmpty then listMetadatas metadatas else ms1
          (.ok (none, ms2), n)

/-- The candidate-id resolution step of `_search_and_download_metadatas` in
isolation (used to state that the direct-identifier path performs no
free-text search). -/
def resolveBookIds (c : Client) (req : ReqInput) : Except PyErr (List Int) :=
  match fetchBookIds c req.identifiers with
  | .error e => .error e
  | .ok bookIds0 => if bookIds0.isEmpty then searchBookIds c req else .ok bookIds0

/-- `Moth.identify`: run the pipeline, translating `Aborted` into the
user-facing `"Aborted"` message; any other exception propagates to the
caller. -/
def identify (c : Client) (req : ReqInput) :
    Except PyErr (Option String × List Metadata) × Nat :=
  match searchAndDownloadMetadatas c req with
  | (.error .aborted, n) => (.ok (some abortedMessage, []), n)
  | other => other

/-! ## Well-shaped payloads

Concrete constructors for the JSON shapes the remote service returns,
parameterized by the field values; theorems over these cover every
well-shaped response. -/

/-- The fields of one edition object in a `book_editions` response. -/
structure EditionSpec where
  id : Int
  isbn : String
  publisher : String
  year : Option Int
  cover : Option String
  deriving DecidableEq

/-- A well-shaped edition object. -/
def mkEdition (e : EditionSpec) : JsonObject :=
  [("id", JsonValue.int e.id), ("isbn", JsonValue.str e.isbn),
   ("publisher", JsonValue.str e.publisher)]
  ++ (match e.year with
      | some y => [("year", JsonValue.int y)]
      | none => [])
  ++ (match e.cover with
      | some cv => [("cover", JsonValue.str cv)]
      | none => [])

/-- A well-shaped book object (the payload under the `"book"` key). -/
def mkBook (id : Int) (title description url : String)
    (authors tags : List String) (rating : Rat) (cover : Option String) :
    JsonObject :=
  [("id", JsonValue.int id), ("title", JsonValue.str title),
   ("description", JsonValue.str description), ("url", JsonValue.str url),
   ("authors", JsonValue.list (authors.map (fun a => JsonValue.obj [("name", JsonValue.str a)]))),
   ("tags", JsonValue.list (tags.map (fun t => JsonValue.obj [("name", JsonValue.str t)]))),
   ("like_average", JsonValue.float rating)]
  ++ (match cover with
      | some cv => [("cover", JsonValue.str cv)]
      | none => [])

/-- The (key, value) writes `_add_cover_urls` performs for a list of editions,
as a flat list: for each edition whose chosen cover is non-null, the big
variant at the running counter and the original at the next counter value. -/
def coverEntries (bookId : Int) (bookCover : Option String) (k : Nat) :
    List EditionSpec → List (Nat × CoverUrl)
  | [] => []
  | e :: rest =>
    match chooseCover e.cover bookCover with
    | none => coverEntries bookId bookCover k rest
    | some u =>
      (k, { bookId := bookId, bookEditionId := e.id, isbn := e.isbn,
            url := getBigCoverUrl u })
      :: (k + 1, { bookId := bookId, bookEditionId := e.id, isbn := e.isbn, url := u })
      :: coverEntries bookId bookCover (k + 2) rest

/-- How many editions contribute a cover (chosen cover non-null). -/
def chosenCount (bookCover : Option String) (es : List EditionSpec) : Nat :=
  (es.filter (fun e => (chooseCover e.cover bookCover).isSome)).length

/-- The relevance keys a rank-`r` worker uses for `n` records:
`100·r, 100·r+1, …, 100·r+n-1`. -/
def rankKeys (r n : Nat) : List Nat :=
  (List.range n).map (fun i => 100 * r + i)

/-- All relevance keys of a fan-out whose workers (ranked from `r`) contribute
the given record counts. -/
def fanKeys (r : Nat) : List Nat → List Nat
  | [] => []
  | n :: rest => rankKeys r n ++ fanKeys (r + 1) rest

/-- Apply a list of dict writes in order. -/
def dictInsertAll {α : Type} (d : Dict α) : List (Nat × α) → Dict α
  | [] => d
  | (k, v) :: rest => dictInsertAll (dictInsert d k v) rest

/-! ## Basic lemmas about the loops and maps -/

theorem filterLoopEqMap {α : Type} (pred : α → Bool) (l : List (Nat × α))
    (h : ∀ m, pred m = true) : filterLoop pred l = l.map (fun p => p.2) := by
  induction l with
  | nil => rfl
  | cons p rest ih =>
    obtain ⟨k, m⟩ := p
    simp [filterLoop, h m, ih]

theorem filterLoopMono {α : Type} (p q : α → Bool) (l : List (Nat × α))
    (h : ∀ m, p m = true → q m = true) :
    (filterLoop p l).Sublist (filterLoop q l) := by
  induction l with
  | nil => exact List.Sublist.refl _
  | cons a rest ih =>
    obtain ⟨k, m⟩ := a
    by_cases hp : p m
    · simp only [filterLoop, hp, if_true, h m hp]
      exact ih.cons₂ m
    · simp only [filterLoop, hp, if_false]
      by_cases hq : q m
      · simp only [hq, if_true]
        exact ih.cons m
      · simp only [hq, if_false]
        exact ih

theorem filterLoopSublistMap {α : Type} (p : α → Bool) (l : List (Nat × α)) :
    (filterLoop p l).Sublist (l.map (fun q => q.2)) := by
  induction l with
  | nil => exact List.Sublist.refl _
  | cons a rest ih =>
    obtain ⟨k, m⟩ := a
    by_cases hp : p m
    · simp only [filterLoop, hp, if_true, List.map_cons]
      exact ih.cons₂ m
    · simp only [filterLoop, hp, if_false, List.map_cons]
      exact ih.cons m

theorem sortedItemsPairwise {α : Type} (d : Dict α) :
    ((sortedItems d).map (fun p => p.1)).Pairwise (fun a b => a ≤ b) := by
  have h := List.sorted_insertionSort (keyLE (α := α)) d
  exact List.pairwise_map.mpr h

theorem sortedItemsPerm {α : Type} (d : Dict α) : (sortedItems d).Perm d :=
  List.perm_insertionSort (keyLE (α := α)) d

/-- C4: the loose filter tier keeps a candidate iff (preferred edition id
unset or equal) OR (preferred ISBN unset or equal); it is satisfied whenever
either preference is unset, regardless of the other field, so with either
preference unset the loose filter keeps every candidate. -/
theorem C4_loose_filter_or_of_ors (bookEditionId : Option Int)
    (isbn : Option String) (preferredBookEditionId : Option Int)
    (preferredIsbn : Option String) (metadatas : Dict Metadata) :
    (matchIdentifiers bookEditionId isbn preferredBookEditionId preferredIsbn = true
      ↔ ((preferredBookEditionId = none ∨ preferredBookEditionId = bookEditionId)
         ∨ (preferredIsbn = none ∨ preferredIsbn = isbn)))
    ∧ matchIdentifiers bookEditionId isbn none preferredIsbn = true
    ∧ matchIdentifiers bookEditionId isbn preferredBookEditionId none = true
    ∧ filterMetadatas metadatas preferredBookEditionId none = listMetadatas metadatas
    ∧ filterMetadatas metadatas none preferredIsbn = listMetadatas metadatas := by
  refine ⟨?_, ?_, ?_, ?_, ?_⟩
  · simp [matchIdentifiers, Option.isNone_iff_eq_none]
  · simp [matchIdentifiers]
  · simp [matchIdentifiers]
  · exact filterLoopEqMap _ _ (fun m => by simp [matchIdentifiers])
  · exact filterLoopEqMap _ _ (fun m => by simp [matchIdentifiers])

/-- C5: strict filtering with both preferences unset keeps every candidate;
the strict result is a sublist of the loose result, which is a sublist of the
unfiltered list; and iteration over the shared map is in ascending
relevance-key order. -/
theorem C5_filter_cascade_inclusions (metadatas : Dict Metadata)
    (preferredBookEditionId : Option Int) (preferredIsbn : Option String) :
    filterMetadatasStrictly metadatas none none = listMetadatas metadatas
    ∧ (filterMetadatasStrictly metadatas preferredBookEditionId preferredIsbn).Sublist
        (filterMetadatas metadatas preferredBookEditionId preferredIsbn)
    ∧ (filterMetadatas metadatas preferredBookEditionId preferredIsbn).Sublist
        (listMetadatas metadatas)
    ∧ ((sortedItems metadatas).map (fun p => p.1)).Pairwise (fun a b => a ≤ b) := by
  refine ⟨?_, ?_, ?_, sortedItemsPairwise metadatas⟩
  · exact filterLoopEqMap _ _ (fun m => by simp [matchIdentifiersStrict])
  · refine filterLoopMono _ _ _ (fun m h => ?_)
    simp only [matchIdentifiersStrict, Bool.and_eq_true] at h
    simp [matchIdentifiers, h.1]
  · exact filterLoopSublistMap _ _

/-! ## Evaluation of the accessors on well-shaped payloads -/

theorem editionIdLookup (e : EditionSpec) : getInt (mkEdition e) "id" = .ok e.id := by
  obtain ⟨i, sb, p, y, cv⟩ := e
  cases y <;> cases cv <;> rfl

theorem editionIsbnLookup (e : EditionSpec) : getStr (mkEdition e) "isbn" = .ok e.isbn := by
  obtain ⟨i, sb, p, y, cv⟩ := e
  cases y <;> cases cv <;> rfl

theorem editionPublisherLookup (e : EditionSpec) :
    getStr (mkEdition e) "publisher" = .ok e.publisher := by
  obtain ⟨i, sb, p, y, cv⟩ := e
  cases y <;> cases cv <;> rfl

theorem editionYearLookup (e : EditionSpec) :
    getOptionalInt (mkEdition e) "year" = .ok e.year := by
  obtain ⟨i, sb, p, y, cv⟩ := e
  cases y <;> cases cv <;> rfl

theorem editionCoverLookup (e : EditionSpec) :
    getOptionalStr (mkEdition e) "cover" = .ok e.cover := by
  obtain ⟨i, sb, p, y, cv⟩ := e
  cases y <;> cases cv <;> rfl

theorem bookIdLookup (id : Int) (title description url : String)
    (authors tags : List String) (rating : Rat) (cover : Option String) :
    getInt (mkBook id title description url authors tags rating cover) "id" = .ok id := rfl

theorem bookTitleLookup (id : Int) (title description url : String)
    (authors tags : List String) (rating : Rat) (cover : Option String) :
    getStr (mkBook id title description url authors tags rating cover) "title" = .ok title := rfl

theorem bookDescriptionLookup (id : Int) (title description url : String)
    (authors tags : List String) (rating : Rat) (cover : Option String) :
    getStr (mkBook id title description url authors tags rating cover) "description"
      = .ok description := rfl

theorem bookUrlLookup (id : Int) (title description url : String)
    (authors tags : List String) (rating : Rat) (cover : Option String) :
    getStr (mkBook id title description url authors tags rating cover) "url" = .ok url := rfl

theorem bookRatingLookup (id : Int) (title description url : String)
    (authors tags : List String) (rating : Rat) (cover : Option String) :
    getFloat (mkBook id title description url authors tags rating cover) "like_average"
      = .ok rating := rfl

theorem bookCoverLookup (id : Int) (title description url : String)
    (authors tags : List String) (rating : Rat) (cover : Option String) :
    getOptionalStr (mkBook id title description url authors tags rating cover) "cover"
      = .ok cover := by
  cases cover <;> rfl

theorem toJsonObjectsNames (xs : List String) :
    toJsonObjects (xs.map (fun t => JsonValue.obj [("name", JsonValue.str t)]))
      = .ok (xs.map (fun t => [("name", JsonValue.str t)])) := by
  induction xs with
  | nil => rfl
  | cons x rest ih => simp [toJsonObjects, mkJsonObject, ih]

theorem namesOfNames (xs : List String) :
    namesOf (xs.map (fun t => ([("name", JsonValue.str t)] : JsonObject))) = .ok xs := by
  induction xs with
  | nil => rfl
  | cons x rest ih => simp [namesOf, getStr, getOptionalStr, dictGet, assocLookup, ih]

theorem bookNamesLookup (id : Int) (title description url : String)
    (authors tags : List String) (rating : Rat) (cover : Option String) :
    getNames (mkBook id title description url authors tags rating cover) "authors" = .ok authors
    ∧ getNames (mkBook id title description url authors tags rating cover) "tags" = .ok tags := by
  constructor
  · show (match toJsonObjects (authors.map (fun a => JsonValue.obj [("name", JsonValue.str a)])) with
      | .error e => Except.error e
      | .ok objs => namesOf objs) = .ok authors
    rw [toJsonObjectsNames]
    exact namesOfNames authors
  · show (match toJsonObjects (tags.map (fun t => JsonValue.obj [("name", JsonValue.str t)])) with
      | .error e => Except.error e
      | .ok objs => namesOf objs) = .ok tags
    rw [toJsonObjectsNames]
    exact namesOfNames tags

/-! ## Fresh-key writes append -/

theorem dictKeysAppend {α : Type} (d l : Dict α) :
    dictKeys (d ++ l) = dictKeys d ++ dictKeys l := by
  simp [dictKeys]

theorem dictInsertFresh {α : Type} (d : Dict α) (k : Nat) (v : α)
    (h : ∀ key ∈ dictKeys d, key < k) : dictInsert d k v = d ++ [(k, v)] := by
  unfold dictInsert
  rw [if_neg]
  simp only [List.any_eq_true, decide_eq_true_eq, not_exists]
  intro p hp
  have : p.1 < k := h p.1 (List.mem_map.mpr ⟨p, hp.1, rfl⟩)
  omega

theorem dictKeysSingletonFresh {α : Type} (st : Dict α) (k : Nat) (v : α)
    (h : ∀ key ∈ dictKeys st, key < k) (j : Nat) (hj : k < j) :
    ∀ key ∈ dictKeys (st ++ [(k, v)]), key < j := by
  intro key hk
  rw [dictKeysAppend] at hk
  rcases List.mem_append.mp hk with hk | hk
  · exact lt_trans (h key hk) hj
  · simp [dictKeys] at hk
    omega

/-- The edition loop of `_add_cover_urls` on well-shaped editions writes
exactly the `coverEntries` list after the existing entries, without error,
whenever the existing keys lie below the counter. -/
theorem addCoverUrlsLoopSpec (bookId : Int) (bookCover : Option String)
    (es : List EditionSpec) :
    ∀ (st : Dict CoverUrl) (k : Nat), (∀ key ∈ dictKeys st, key < k) →
      addCoverUrlsLoop st bookId bookCover (es.map mkEdition) k
        = (st ++ coverEntries bookId bookCover k es, none) := by
  induction es with
  | nil =>
    intro st k _
    simp [addCoverUrlsLoop, coverEntries]
  | cons e rest ih =>
    intro st k h
    simp only [List.map_cons, addCoverUrlsLoop, editionCoverLookup]
    cases hcc : chooseCover e.cover bookCover with
    | none =>
      simp only [hcc]
      rw [ih st k h]
      simp [coverEntries, hcc]
    | some u =>
      simp only [hcc, addCoverUrl, editionIdLookup, editionIsbnLookup]
      rw [dictInsertFresh st k _ h]
      rw [dictInsertFresh (st ++ [(k, _)]) (k + 1) _
        (dictKeysSingletonFresh st k _ h (k + 1) (by omega))]
      rw [ih (st ++ [(k, _)] ++ [(k + 1, _)]) (k + 2) ?_]
      · simp [coverEntries, hcc, List.append_assoc]
      · intro key hk
        rw [dictKeysAppend] at hk
        rcases List.mem_append.mp hk with hk | hk
        · have := dictKeysSingletonFresh st k _ h (k + 1) (by omega) key hk
          omega
        · simp [dictKeys] at hk
          omega

/-- `_add_cover_urls` on a well-shaped book and editions, starting from the
empty map, produces exactly the `coverEntries` writes and no error. -/
theorem addCoverUrlsSpec (id : Int) (title description url : String)
    (authors tags : List String) (rating : Rat) (bookCover : Option String)
    (es : List EditionSpec) (relevance : Nat) :
    addCoverUrls emptyDict (mkBook id title description url authors tags rating bookCover)
        (es.map mkEdition) relevance
      = (coverEntries id bookCover relevance es, none) := by
  unfold addCoverUrls
  rw [bookIdLookup, bookCoverLookup]
  have := addCoverUrlsLoopSpec id bookCover es emptyDict relevance
    (by intro key hk; simp [emptyDict, dictKeys] at hk)
  simpa [emptyDict] using this

/-- C8: cover-URL construction prefers the edition's own cover image, falls
back to the book's cover when the edition's is absent, skips an edition whose
chosen cover is null, and for each cover found emits exactly two
relevance-keyed entries — the big variant (`/normal/` rewritten to `/big/`)
at the lower key, then the original URL at the next key; `_add_cover_urls`
emits exactly these writes for every well-shaped payload. -/
theorem C8_cover_url_big_then_original (id : Int) (title description url : String)
    (authors tags : List String) (rating : Rat) (bookCover : Option String)
    (es : List EditionSpec) (relevance : Nat) :
    (∀ (s : String) (bc : Option String), s ≠ "" → chooseCover (some s) bc = some s)
    ∧ (∀ bc : Option String, chooseCover none bc = bc)
    ∧ (∀ (bid : Int) (bc : Option String) (k : Nat) (e : EditionSpec)
        (rest : List EditionSpec), chooseCover e.cover bc = none →
        coverEntries bid bc k (e :: rest) = coverEntries bid bc k rest)
    ∧ (∀ (bid : Int) (bc : Option String) (k : Nat) (e : EditionSpec)
        (rest : List EditionSpec) (u : String), chooseCover e.cover bc = some u →
        coverEntries bid bc k (e :: rest)
          = (k, { bookId := bid, bookEditionId := e.id, isbn := e.isbn,
                  url := getBigCoverUrl u })
            :: (k + 1, { bookId := bid, bookEditionId := e.id, isbn := e.isbn, url := u })
            :: coverEntries bid bc (k + 2) rest)
    ∧ addCoverUrls emptyDict (mkBook id title description url authors tags rating bookCover)
        (es.map mkEdition) (100 * relevance)
      = (coverEntries id bookCover (100 * relevance) es, none) := by
  refine ⟨?_, ?_, ?_, ?_, addCoverUrlsSpec ..⟩
  · intro s bc hs
    simp [chooseCover, hs]
  · intro bc
    rfl
  · intro bid bc k e rest hcc
    simp [coverEntries, hcc]
  · intro bid bc k e rest u hcc
    simp [coverEntries, hcc]

theorem C8_cover_url_big_then_original_witness :
    chooseCover (some "a/normal/c.jpg") (some "b") = some "a/normal/c.jpg"
    ∧ chooseCover none (some "b") = some "b"
    ∧ coverEntries 1 none 0 [⟨7, "i", "p", none, some "a/normal/c.jpg"⟩]
        = [(0, { bookId := 1, bookEditionId := 7, isbn := "i",
                 url := getBigCoverUrl "a/normal/c.jpg" }),
           (1, { bookId := 1, bookEditionId := 7, isbn := "i", url := "a/normal/c.jpg" })]
    ∧ addCoverUrls emptyDict (mkBook 1 "t" "d" "u" [] [] 0 none)
        [mkEdition ⟨7, "i", "p", none, some "a/normal/c.jpg"⟩] (100 * 0)
      = (coverEntries 1 none (100 * 0) [⟨7, "i", "p", none, some "a/normal/c.jpg"⟩], none) := by
  obtain ⟨h1, h2, h3, h4, h5⟩ :=
    C8_cover_url_big_then_original 1 "t" "d" "u" [] [] 0 none
      [⟨7, "i", "p", none, some "a/normal/c.jpg"⟩] 0
  refine ⟨h1 "a/normal/c.jpg" (some "b") (by decide), h2 (some "b"), ?_, h5⟩
  rw [h4 1 none 0 ⟨7, "i", "p", none, some "a/normal/c.jpg"⟩ [] "a/normal/c.jpg" rfl]
  rfl

/-- C10: the fallback from the edition's cover to the book's cover triggers on
any falsy value — an edition cover that is present but equal to the empty
string falls back just like an absent one — while an edition is skipped only
when the chosen value is null, so a selected empty-string book cover is still
emitted as two entries. -/
theorem C10_empty_string_cover_falls_back (bookCover : Option String) :
    chooseCover (some "") bookCover = bookCover
    ∧ (∀ (bid : Int) (bc : Option String) (k : Nat) (e : EditionSpec)
        (rest : List EditionSpec), chooseCover e.cover bc = none →
        coverEntries bid bc k (e :: rest) = coverEntries bid bc k rest)
    ∧ ∀ (id bid : Int) (isbn publisher : String) (year : Option Int)
        (title description url : String) (authors tags : List String)
        (rating : Rat) (k : Nat),
        addCoverUrls emptyDict (mkBook bid title description url authors tags rating (some ""))
            [mkEdition ⟨id, isbn, publisher, year, none⟩] k
          = ([(k, { bookId := bid, bookEditionId := id, isbn := isbn,
                    url := getBigCoverUrl "" }),
              (k + 1, { bookId := bid, bookEditionId := id, isbn := isbn, url := "" })],
             none) := by
  refine ⟨rfl, ?_, ?_⟩
  · intro bid bc k e rest hcc
    simp [coverEntries, hcc]
  · intro id bid isbn publisher year title description url authors tags rating k
    have h := addCoverUrlsSpec bid title description url authors tags rating (some "")
      [⟨id, isbn, publisher, year, none⟩] k
    rw [show ([⟨id, isbn, publisher, year, none⟩] : List EditionSpec).map mkEdition
        = [mkEdition ⟨id, isbn, publisher, year, none⟩] from rfl] at h
    rw [h]
    rfl

theorem C10_empty_string_cover_falls_back_witness :
    chooseCover (some "") (some "bc") = some "bc"
    ∧ coverEntries 0 none 0 [⟨9, "i", "p", none, none⟩] = coverEntries 0 none 0 []
    ∧ addCoverUrls emptyDict (mkBook 5 "t" "d" "u" [] [] 0 (some ""))
        [mkEdition ⟨9, "i", "p", none, none⟩] 3
      = ([(3, { bookId := 5, bookEditionId := 9, isbn := "i", url := getBigCoverUrl "" }),
          (4, { bookId := 5, bookEditionId := 9, isbn := "i", url := "" })], none) := by
  obtain ⟨h1, h2, h3⟩ := C10_empty_string_cover_falls_back (some "bc")
  exact ⟨h1, h2 0 none 0 ⟨9, "i", "p", none, none⟩ [] rfl,
         h3 9 5 "i" "p" none "t" "d" "u" [] [] 0 3⟩

/-- `_add_metadata`'s record for a well-shaped book and edition. -/
theorem buildMetadataSpec (id : Int) (title description url : String)
    (authors tags : List String) (rating : Rat) (bookCover : Option String)
    (e : EditionSpec) (bookSeries : List Series) (relevance : Nat) :
    buildMetadata (mkBook id title description url authors tags rating bookCover)
        bookSeries (mkEdition e) relevance
      = .ok {
          title := title
          authors := authors
          comments := addSubseries bookSeries (fixComments description)
          languages := getLanguages tags
          pubdate := e.year
          publisher := e.publisher
          rating := rating
          series := bookSeries.head?.map (fun s => s.series)
          seriesIndex := bookSeries.head?.map (fun s => s.seriesIndex)
          tags := tags.filter (fun t => !isLanguageTag t)
          identifiers :=
            setIdentifier (setIdentifier (setIdentifier [] "isbn" e.isbn)
              "moly" (toString id)) "moly-edition" (toString e.id)
          hasCachedCoverUrl := e.cover.isSome
          sourceRelevance := relevance } := by
  unfold buildMetadata
  rw [bookIdLookup, editionIdLookup, (bookNamesLookup id title description url
        authors tags rating bookCover).2, bookTitleLookup,
      (bookNamesLookup id title description url authors tags rating bookCover).1,
      bookDescriptionLookup, editionYearLookup, editionPublisherLookup,
      bookRatingLookup, editionIsbnLookup, editionCoverLookup]

/-- C9: for every book whose series list has at most one entry (no
subseries), the comment body of the built metadata record is the literal
`"\r\n"` separator followed by the whitespace-normalized description — the
separator joining the subseries prefix to the description is prepended even
when the subseries list is empty. -/
theorem C9_crlf_prepended_without_subseries (id : Int)
    (title description url : String) (authors tags : List String)
    (rating : Rat) (bookCover : Option String) (e : EditionSpec)
    (bookSeries : List Series) (relevance : Nat)
    (h : bookSeries.length ≤ 1) :
    ∃ m : Metadata,
      buildMetadata (mkBook id title description url authors tags rating bookCover)
          bookSeries (mkEdition e) relevance = .ok m
      ∧ m.comments = "\r\n" ++ fixComments description := by
  refine ⟨_, buildMetadataSpec id title description url authors tags rating
    bookCover e bookSeries relevance, ?_⟩
  show addSubseries bookSeries (fixComments description) = "\r\n" ++ fixComments description
  unfold addSubseries
  have hdrop : bookSeries.drop 1 = [] := by
    cases bookSeries with
    | nil => rfl
    | cons s rest =>
      cases rest with
      | nil => rfl
      | cons s2 rest2 => simp at h
  rw [hdrop]
  rfl

theorem C9_crlf_prepended_without_subseries_witness :
    ∃ m : Metadata,
      buildMetadata (mkBook 1 "t" "a  description" "u" ["a"] ["x"] 0 none)
          [{ series := "S", seriesIndex := 1, url := "su" }] (mkEdition ⟨7, "i", "p", none, none⟩) 5
        = .ok m
      ∧ m.comments = "\r\n" ++ fixComments "a  description" :=
  C9_crlf_prepended_without_subseries 1 "t" "a  description" "u" ["a"] ["x"] 0 none
    ⟨7, "i", "p", none, none⟩ [{ series := "S", seriesIndex := 1, url := "su" }] 5
    (by decide)

/-! ## Relevance-key structure of the fan-out -/

/-- `n` consecutive keys counted from `rel`. -/
def keysFrom (rel n : Nat) : List Nat := (List.range n).map (fun i => rel + i)

theorem rankKeysEqKeysFrom (r n : Nat) : rankKeys r n = keysFrom (100 * r) n := rfl

theorem keysFromSucc (rel n : Nat) :
    keysFrom rel (n + 1) = rel :: keysFrom (rel + 1) n := by
  simp only [keysFrom, List.range_succ_eq_map, List.map_cons, List.map_map,
    Nat.add_zero]
  refine congrArg (rel :: ·) (List.map_congr_left ?_)
  intro i _
  simp [Function.comp]
  omega

theorem memKeysFrom (rel n k : Nat) :
    k ∈ keysFrom rel n ↔ ∃ i, i < n ∧ k = rel + i := by
  simp [keysFrom, List.mem_map, List.mem_range, eq_comm]

/-- The keys written by `_add_metadatas` on a well-shaped book and editions:
one consecutive key per edition, counted from the starting relevance. -/
theorem addMetadatasKeys (id : Int) (title description url : String)
    (authors tags : List String) (rating : Rat) (bookCover : Option String)
    (bookSeries : List Series) (es : List EditionSpec) :
    ∀ (st : Dict Metadata) (rel : Nat), (∀ key ∈ dictKeys st, key < rel) →
      dictKeys (addMetadatas st
          (mkBook id title description url authors tags rating bookCover)
          bookSeries (es.map mkEdition) rel).1
        = dictKeys st ++ keysFrom rel es.length := by
  induction es with
  | nil =>
    intro st rel _
    simp [addMetadatas, keysFrom]
  | cons e rest ih =>
    intro st rel h
    simp only [List.map_cons, addMetadatas, addMetadata, buildMetadataSpec]
    rw [dictInsertFresh st rel _ h]
    rw [ih (st ++ [(rel, _)]) (rel + 1)
      (dictKeysSingletonFresh st rel _ h (rel + 1) (by omega))]
    rw [dictKeysAppend, List.length_cons, keysFromSucc]
    simp [dictKeys, List.append_assoc]

/-- The keys written by `_add_cover_urls` on a well-shaped payload: two
consecutive keys per contributing edition, counted from the starting
relevance. -/
theorem coverEntriesKeys (bookId : Int) (bookCover : Option String) :
    ∀ (es : List EditionSpec) (k : Nat),
      dictKeys (coverEntries bookId bookCover k es)
        = keysFrom k (2 * chosenCount bookCover es) := by
  intro es
  induction es with
  | nil =>
    intro k
    simp [coverEntries, chosenCount, keysFrom, dictKeys]
  | cons e rest ih =>
    intro k
    cases hcc : chooseCover e.cover bookCover with
    | none =>
      have hcnt : chosenCount bookCover (e :: rest) = chosenCount bookCover rest := by
        simp [chosenCount, List.filter, hcc]
      simp only [coverEntries, hcc, hcnt]
      exact ih k
    | some u =>
      have hcnt : chosenCount bookCover (e :: rest) = chosenCount bookCover rest + 1 := by
        simp [chosenCount, List.filter, hcc]
      simp only [coverEntries, hcc, hcnt]
      have h2 : 2 * (chosenCount bookCover rest + 1)
          = 2 * chosenCount bookCover rest + 1 + 1 := by omega
      rw [h2, keysFromSucc, keysFromSucc]
      simp only [dictKeys, List.map_cons]
      refine congrArg (k :: ·) (congrArg ((k + 1) :: ·) ?_)
      exact ih (k + 2)

theorem rankKeysNodup (r n : Nat) : (rankKeys r n).Nodup := by
  refine List.Nodup.map ?_ (List.nodup_range n)
  intro a b hab
  have hab2 : 100 * r + a = 100 * r + b := hab
  omega

theorem fanKeysLowerBound : ∀ (ns : List Nat) (r k : Nat),
    k ∈ fanKeys r ns → 100 * r ≤ k := by
  intro ns
  induction ns with
  | nil => intro r k h; simp [fanKeys] at h
  | cons n rest ih =>
    intro r k h
    rcases List.mem_append.mp h with h | h
    · obtain ⟨i, _, rfl⟩ := (memKeysFrom (100 * r) n k).mp h
      omega
    · have := ih (r + 1) k h
      omega

theorem fanKeysNodup : ∀ (ns : List Nat) (r : Nat), (∀ n ∈ ns, n ≤ 100) →
    (fanKeys r ns).Nodup := by
  intro ns
  induction ns with
  | nil => intro r _; simp [fanKeys]
  | cons n rest ih =>
    intro r h
    refine List.Nodup.append (rankKeysNodup r n) (ih (r + 1) (fun m hm => h m (List.mem_cons_of_mem n hm))) ?_
    intro k hk hk2
    obtain ⟨i, hi, rfl⟩ := (memKeysFrom (100 * r) n _).mp hk
    have hn : n ≤ 100 := h n (List.mem_cons_self n rest)
    have := fanKeysLowerBound rest (r + 1) _ hk2
    omega

/-! ## Order-independence of the result maps -/

/-- Ordering of dict items by strictly increasing key. -/
def keyLT {α : Type} (a b : Nat × α) : Prop := a.1 < b.1

instance {α : Type} : IsAntisymm (Nat × α) keyLT :=
  ⟨fun _ _ h1 h2 => absurd (Nat.lt_trans h1 h2) (Nat.lt_irrefl _)⟩

theorem dictInsertNotMem {α : Type} (d : Dict α) (k : Nat) (v : α)
    (h : k ∉ dictKeys d) : dictInsert d k v = d ++ [(k, v)] := by
  unfold dictInsert
  rw [if_neg]
  simp only [List.any_eq_true, decide_eq_true_eq, not_exists]
  intro p hp
  exact h (List.mem_map.mpr ⟨p, hp.1, hp.2⟩)

theorem dictInsertAllNodup {α : Type} :
    ∀ (ws : List (Nat × α)) (d : Dict α),
      (((d ++ ws).map Prod.fst).Nodup) → dictInsertAll d ws = d ++ ws := by
  intro ws
  induction ws with
  | nil => intro d _; simp [dictInsertAll]
  | cons p rest ih =>
    intro d h
    obtain ⟨k, v⟩ := p
    have hk : k ∉ dictKeys d := by
      intro hmem
      rw [List.map_append] at h
      have hkl : k ∈ d.map Prod.fst := hmem
      have hkr : k ∈ ((k, v) :: rest).map Prod.fst := by simp
      exact (List.disjoint_of_nodup_append h) hkl hkr
    show dictInsertAll (dictInsert d k v) rest = d ++ (k, v) :: rest
    rw [dictInsertNotMem d k v hk]
    rw [ih (d ++ [(k, v)]) (by simpa using h)]
    simp

theorem sortedItemsStrict {α : Type} (ws : List (Nat × α))
    (hnd : (ws.map Prod.fst).Nodup) : (sortedItems ws).Pairwise keyLT := by
  have h1 : (sortedItems ws).Pairwise (keyLE (α := α)) :=
    List.sorted_insertionSort (keyLE (α := α)) ws
  have hperm : List.Perm ((sortedItems ws).map Prod.fst) (ws.map Prod.fst) :=
    (sortedItemsPerm ws).map Prod.fst
  have hnd2 : ((sortedItems ws).map Prod.fst).Nodup := hperm.nodup_iff.mpr hnd
  have h2 : (sortedItems ws).Pairwise (fun a b : Nat × α => a.1 ≠ b.1) :=
    List.pairwise_map.mp hnd2
  exact (h1.and h2).imp (fun h => Nat.lt_of_le_of_ne h.1 h.2)

/-- Two write sequences that are permutations of each other, with pairwise
distinct keys, produce maps with identical sorted item lists. -/
theorem sortedItemsPermInvariant {α : Type} (ws ws' : List (Nat × α))
    (hperm : ws.Perm ws') (hnd : (ws.map Prod.fst).Nodup) :
    sortedItems (dictInsertAll emptyDict ws) = sortedItems (dictInsertAll emptyDict ws') := by
  have hnd' : (ws'.map Prod.fst).Nodup := ((hperm.map Prod.fst).nodup_iff).mp hnd
  rw [dictInsertAllNodup ws emptyDict (by simpa [emptyDict] using hnd),
      dictInsertAllNodup ws' emptyDict (by simpa [emptyDict] using hnd')]
  simp only [emptyDict, List.nil_append]
  refine List.eq_of_perm_of_sorted (r := keyLT (α := α)) ?_ ?_ ?_
  · exact (sortedItemsPerm ws).trans (hperm.trans (sortedItemsPerm ws').symm)
  · exact sortedItemsStrict ws hnd
  · exact sortedItemsStrict ws' hnd'

/-- C1 (amended): relevance keys are assigned as 100·rank + offset — one key
per edition for the metadata fan-out, two per contributing edition for the
cover fan-out, counted from 100·rank.  Provided every candidate contributes
at most 100 records, every key of rank `r` lies in `[100·r, 100·r + 99]` and
the keys are pairwise distinct across the fan-out; and for pairwise-distinct
keys the sorted iteration the consumers use is identical for every write
order, and is ascending by key. -/
theorem C1_relevance_key_partition (ns : List Nat) (hns : ∀ n ∈ ns, n ≤ 100) :
    (∀ r n k, n ≤ 100 → k ∈ rankKeys r n → 100 * r ≤ k ∧ k ≤ 100 * r + 99)
    ∧ (fanKeys 0 ns).Nodup
    ∧ (∀ (α : Type) (ws ws' : List (Nat × α)), ws.Perm ws' →
        (ws.map Prod.fst).Nodup →
        sortedItems (dictInsertAll emptyDict ws) = sortedItems (dictInsertAll emptyDict ws')
        ∧ ((sortedItems (dictInsertAll emptyDict ws)).map (fun p => p.1)).Pairwise
            (fun a b => a ≤ b))
    ∧ (∀ (id : Int) (title description url : String) (authors tags : List String)
        (rating : Rat) (bookCover : Option String) (bookSeries : List Series)
        (es : List EditionSpec) (r : Nat),
        dictKeys (addMetadatas emptyDict
            (mkBook id title description url authors tags rating bookCover)
            bookSeries (es.map mkEdition) (100 * r)).1 = rankKeys r es.length)
    ∧ (∀ (bookId : Int) (bookCover : Option String) (es : List EditionSpec) (r : Nat),
        dictKeys (coverEntries bookId bookCover (100 * r) es)
          = rankKeys r (2 * chosenCount bookCover es)) := by
  refine ⟨?_, fanKeysNodup ns 0 hns, ?_, ?_, ?_⟩
  · intro r n k hn hk
    obtain ⟨i, hi, rfl⟩ := (memKeysFrom (100 * r) n k).mp hk
    omega
  · intro α ws ws' hperm hnd
    exact ⟨sortedItemsPermInvariant ws ws' hperm hnd,
      sortedItemsPairwise (dictInsertAll emptyDict ws)⟩
  · intro id title description url authors tags rating bookCover bookSeries es r
    rw [addMetadatasKeys id title description url authors tags rating bookCover
      bookSeries es emptyDict (100 * r) (by intro key hk; simp [emptyDict, dictKeys] at hk)]
    simp [emptyDict, dictKeys, rankKeysEqKeysFrom]
  · intro bookId bookCover es r
    rw [coverEntriesKeys bookId bookCover es (100 * r), rankKeysEqKeysFrom]

/-- C1 counterexample: the code does not bound the number of records one
candidate contributes; with 101 editions the rank-0 metadata worker writes
key 100, which lies outside `[0, 99]` and collides with the first key of the
rank-1 worker. -/
theorem C1_relevance_key_partition_counterexample :
    100 ∈ dictKeys (addMetadatas emptyDict (mkBook 1 "t" "d" "u" [] [] 0 none) []
        ((List.replicate 101 (⟨1, "i", "p", none, none⟩ : EditionSpec)).map mkEdition)
        (100 * 0)).1
    ∧ 100 ∈ dictKeys (addMetadatas emptyDict (mkBook 1 "t" "d" "u" [] [] 0 none) []
        ([(⟨2, "i", "p", none, none⟩ : EditionSpec)].map mkEdition) (100 * 1)).1
    ∧ ¬ (100 ≤ 100 * 0 + 99) := by
  refine ⟨?_, ?_, by omega⟩
  · rw [addMetadatasKeys 1 "t" "d" "u" [] [] 0 none []
      (List.replicate 101 (⟨1, "i", "p", none, none⟩ : EditionSpec)) emptyDict (100 * 0)
      (by intro key hk; simp [emptyDict, dictKeys] at hk)]
    simp only [emptyDict, dictKeys, List.map_nil, List.nil_append,
      List.length_replicate]
    exact (memKeysFrom (100 * 0) 101 100).mpr ⟨100, by omega, by omega⟩
  · rw [addMetadatasKeys 1 "t" "d" "u" [] [] 0 none []
      [(⟨2, "i", "p", none, none⟩ : EditionSpec)] emptyDict (100 * 1)
      (by intro key hk; simp [emptyDict, dictKeys] at hk)]
    simp only [emptyDict, dictKeys, List.map_nil, List.nil_append,
      List.length_singleton]
    exact (memKeysFrom (100 * 1) 1 100).mpr ⟨0, by omega, by omega⟩

theorem C1_relevance_key_partition_witness :
    (fanKeys 0 [2, 1]).Nodup
    ∧ (100 * 0 ≤ 1 ∧ 1 ≤ 100 * 0 + 99)
    ∧ sortedItems (dictInsertAll emptyDict [(1, 10), (0, 20)])
        = sortedItems (dictInsertAll emptyDict [(0, 20), (1, 10)]) := by
  obtain ⟨ha, hb, hc, _, _⟩ := C1_relevance_key_partition [2, 1] (by decide)
  refine ⟨hb, ha 0 2 1 (by omega) (by decide), ?_⟩
  exact (hc Nat [(1, 10), (0, 20)] [(0, 20), (1, 10)] (by decide) (by decide)).1

/-- C6: when the request carries the direct `"moly"` identifier, candidate
resolution returns exactly that id — appending an ISBN-derived id only when
an ISBN is also present and resolves to an id whose decimal string differs —
and the resolution step never consults the free-text search endpoint
(replacing the search oracle does not change its result). -/
theorem C6_direct_identifier_skips_search (c : Client) (req : ReqInput) (s : String)
    (hmoly : assocLookup req.identifiers "moly" = some s) :
    (assocLookup req.identifiers "isbn" = none →
      fetchBookIds c req.identifiers = .ok [pyInt s])
    ∧ (∀ ids, fetchBookIds c req.identifiers = .ok ids →
        ids = [pyInt s]
        ∨ ∃ (isbn : String) (b : Int),
            assocLookup req.identifiers "isbn" = some isbn
            ∧ fetchBookIdByIsbn c isbn = .ok (some b)
            ∧ toString b ≠ s
            ∧ ids = [pyInt s, b])
    ∧ (∀ f, resolveBookIds { c with remote := { c.remote with search := f } } req
          = resolveBookIds c req) := by
  have hshape : ∀ ids, fetchBookIds c req.identifiers = .ok ids →
      ids = [pyInt s]
      ∨ ∃ (isbn : String) (b : Int),
          assocLookup req.identifiers "isbn" = some isbn
          ∧ fetchBookIdByIsbn c isbn = .ok (some b)
          ∧ toString b ≠ s
          ∧ ids = [pyInt s, b] := by
    intro ids hids
    cases hisbn : assocLookup req.identifiers "isbn" with
    | none =>
      simp only [fetchBookIds, hmoly, hisbn, Except.ok.injEq] at hids
      exact Or.inl hids.symm
    | some isbn =>
      simp only [fetchBookIds, hmoly, hisbn] at hids
      cases hfetch : fetchBookIdByIsbn c isbn with
      | error e => rw [hfetch] at hids; exact absurd hids (by simp)
      | ok ob =>
        rw [hfetch] at hids
        cases ob with
        | none =>
          simp only [Except.ok.injEq] at hids
          exact Or.inl hids.symm
        | some b =>
          simp only [Except.ok.injEq] at hids
          by_cases hd : toString b = s
          · rw [if_neg (by simp [hd])] at hids
            exact Or.inl hids.symm
          · rw [if_pos (by simp [hd])] at hids
            exact Or.inr ⟨isbn, b, rfl, hfetch, hd, hids.symm⟩
  refine ⟨?_, hshape, ?_⟩
  · intro hisbn
    simp [fetchBookIds, hmoly, hisbn]
  · intro f
    have hfb : fetchBookIds { c with remote := { c.remote with search := f } }
        req.identifiers = fetchBookIds c req.identifiers := rfl
    unfold resolveBookIds
    rw [hfb]
    cases hres : fetchBookIds c req.identifiers with
    | error e => rfl
    | ok ids =>
      rcases hshape ids hres with h | ⟨_, _, _, _, _, h⟩ <;>
        (subst h; rfl)

theorem C6_direct_identifier_skips_search_witness :
    fetchBookIds
        { abortEvent := false,
          remote := { search := fun _ => none, bookByIsbn := fun _ => none,
                      book := fun _ => none, editions := fun _ => none,
                      seriesPage := fun _ => none } }
        [("moly", "15331")]
      = .ok [pyInt "15331"] :=
  (C6_direct_identifier_skips_search
    { abortEvent := false,
      remote := { search := fun _ => none, bookByIsbn := fun _ => none,
                  book := fun _ => none, editions := fun _ => none,
                  seriesPage := fun _ => none } }
    ⟨[], [], [], [("moly", "15331")]⟩ "15331" rfl).1 rfl

theorem searchLoopFirstHit (c : Client) (ms : List JsonObject) :
    ∀ (qs : List String) (i : Nat), i < qs.length →
      (∀ j, j < i → fetchSearchResults c (qs.getD j "") = .ok []) →
      fetchSearchResults c (qs.getD i "") = .ok ms → ms ≠ [] →
      searchLoop c qs = idsOf ms := by
  intro qs
  induction qs with
  | nil =>
    intro i hi
    simp at hi
  | cons q rest ih =>
    intro i hi hzero hhit hne
    cases i with
    | zero =>
      rw [List.getD_cons_zero] at hhit
      simp only [searchLoop, hhit]
      rw [if_neg (by simpa [List.isEmpty_iff] using hne)]
    | succ i2 =>
      have h0 : fetchSearchResults c q = .ok [] := by
        have := hzero 0 (Nat.succ_pos i2)
        rwa [List.getD_cons_zero] at this
      simp only [searchLoop, h0, List.isEmpty_nil, if_true]
      refine ih i2 (by simpa using hi) ?_ ?_ hne
      · intro j hj
        have := hzero (j + 1) (by omega)
        rwa [List.getD_cons_succ] at this
      · have := hhit
        rwa [List.getD_cons_succ] at this

theorem searchLoopAgree (c c' : Client) (ms : List JsonObject) :
    ∀ (qs : List String) (i : Nat), i < qs.length →
      (∀ j, j < i → fetchSearchResults c (qs.getD j "") = .ok []) →
      fetchSearchResults c (qs.getD i "") = .ok ms → ms ≠ [] →
      (∀ j, j ≤ i → fetchSearchResults c' (qs.getD j "")
        = fetchSearchResults c (qs.getD j "")) →
      searchLoop c' qs = searchLoop c qs := by
  intro qs
  induction qs with
  | nil =>
    intro i hi
    simp at hi
  | cons q rest ih =>
    intro i hi hzero hhit hne hagree
    cases i with
    | zero =>
      have ha0 : fetchSearchResults c' q = fetchSearchResults c q := by
        have := hagree 0 (Nat.le_refl 0)
        rwa [List.getD_cons_zero] at this
      rw [List.getD_cons_zero] at hhit
      simp only [searchLoop, ha0, hhit]
      rw [if_neg (by simpa [List.isEmpty_iff] using hne),
          if_neg (by simpa [List.isEmpty_iff] using hne)]
    | succ i2 =>
      have h0 : fetchSearchResults c q = .ok [] := by
        have := hzero 0 (Nat.succ_pos i2)
        rwa [List.getD_cons_zero] at this
      have ha0 : fetchSearchResults c' q = fetchSearchResults c q := by
        have := hagree 0 (by omega)
        rwa [List.getD_cons_zero] at this
      simp only [searchLoop, ha0, h0, List.isEmpty_nil, if_true]
      refine ih i2 (by simpa using hi) ?_ ?_ hne ?_
      · intro j hj
        have := hzero (j + 1) (by omega)
        rwa [List.getD_cons_succ] at this
      · have := hhit
        rwa [List.getD_cons_succ] at this
      · intro j hj
        have := hagree (j + 1) (by omega)
        rwa [List.getD_cons_succ] at this

/-- C7: free-text search evaluates the generated query sequence in order —
title+author tokens, title tokens alone, then the two subtitle-stripped
combinations only when stripping changed the tokens — and returns the
candidate ids extracted from the first query whose result set is non-empty;
queries after the first hit are never evaluated (any client agreeing on the
queries up to the first hit yields the same result). -/
theorem C7_first_hit_short_circuits (c c' : Client) (req : ReqInput)
    (i : Nat) (ms : List JsonObject)
    (hi : i < (getSearchQueries req.titleTokens req.authorTokens
      req.strippedTitleTokens).length)
    (hzero : ∀ j, j < i → fetchSearchResults c
      ((getSearchQueries req.titleTokens req.authorTokens
        req.strippedTitleTokens).getD j "") = .ok [])
    (hhit : fetchSearchResults c
      ((getSearchQueries req.titleTokens req.authorTokens
        req.strippedTitleTokens).getD i "") = .ok ms)
    (hne : ms ≠ []) :
    searchBookIds c req = idsOf ms
    ∧ ((∀ j, j ≤ i → fetchSearchResults c'
          ((getSearchQueries req.titleTokens req.authorTokens
            req.strippedTitleTokens).getD j "")
          = fetchSearchResults c
          ((getSearchQueries req.titleTokens req.authorTokens
            req.strippedTitleTokens).getD j "")) →
        searchBookIds c' req = searchBookIds c req) := by
  constructor
  · exact searchLoopFirstHit c ms _ i hi hzero hhit hne
  · intro hagree
    exact searchLoopAgree c c' ms _ i hi hzero hhit hne hagree

theorem C7_first_hit_short_circuits_witness :
    searchBookIds
        { abortEvent := false,
          remote := {
            search := fun q => if q = "a b"
              then some (JsonValue.obj
                [("books", JsonValue.list [JsonValue.obj [("id", JsonValue.int 5)]])])
              else none,
            bookByIsbn := fun _ => none, book := fun _ => none,
            editions := fun _ => none, seriesPage := fun _ => none } }
        ⟨["a"], ["b"], ["a"], []⟩
      = .ok [5]
    ∧ searchBookIds
        { abortEvent := false,
          remote := {
            search := fun q => if q = "a b"
              then some (JsonValue.obj
                [("books", JsonValue.list [JsonValue.obj [("id", JsonValue.int 5)]])])
              else some (JsonValue.obj
                [("books", JsonValue.list [JsonValue.obj [("id", JsonValue.int 6)]])]),
            bookByIsbn := fun _ => none, book := fun _ => none,
            editions := fun _ => none, seriesPage := fun _ => none } }
        ⟨["a"], ["b"], ["a"], []⟩
      = searchBookIds
        { abortEvent := false,
          remote := {
            search := fun q => if q = "a b"
              then some (JsonValue.obj
                [("books", JsonValue.list [JsonValue.obj [("id", JsonValue.int 5)]])])
              else none,
            bookByIsbn := fun _ => none, book := fun _ => none,
            editions := fun _ => none, seriesPage := fun _ => none } }
        ⟨["a"], ["b"], ["a"], []⟩ := by
  obtain ⟨h1, h2⟩ := C7_first_hit_short_circuits
    { abortEvent := false,
      remote := {
        search := fun q => if q = "a b"
          then some (JsonValue.obj
            [("books", JsonValue.list [JsonValue.obj [("id", JsonValue.int 5)]])])
          else none,
        bookByIsbn := fun _ => none, book := fun _ => none,
        editions := fun _ => none, seriesPage := fun _ => none } }
    { abortEvent := false,
      remote := {
        search := fun q => if q = "a b"
          then some (JsonValue.obj
            [("books", JsonValue.list [JsonValue.obj [("id", JsonValue.int 5)]])])
          else some (JsonValue.obj
            [("books", JsonValue.list [JsonValue.obj [("id", JsonValue.int 6)]])]),
        bookByIsbn := fun _ => none, book := fun _ => none,
        editions := fun _ => none, seriesPage := fun _ => none } }
    ⟨["a"], ["b"], ["a"], []⟩ 0 [[("id", JsonValue.int 5)]]
    (by decide)
    (fun j hj => absurd hj (by omega))
    rfl
    (List.cons_ne_nil _ _)
  refine ⟨h1.trans rfl, h2 ?_⟩
  intro j hj
  have hj0 : j = 0 := by omega
  subst hj0
  rfl

/-- C2 (amended): with the cancellation signal set before the fan-out starts
and resolution needing no network call (direct site id present, no ISBN),
`identify` returns the user-facing `"Aborted"` message and exactly ONE worker
is started — `fetch_multiple` checks the abort event only after
`fetcher.start()`, so the stagger loop starts the first worker and raises
`Aborted` before starting any further one; the started worker itself aborts
at its first network call and contributes nothing. -/
theorem C2_abort_starts_first_worker (c : Client) (req : ReqInput) (s : String)
    (habort : c.abortEvent = true)
    (hmoly : assocLookup req.identifiers "moly" = some s)
    (hisbn : assocLookup req.identifiers "isbn" = none) :
    identify c req = (.ok (some abortedMessage, []), 1) := by
  have hfb : fetchBookIds c req.identifiers = .ok [pyInt s] := by
    simp [fetchBookIds, hmoly, hisbn]
  have hworker : fetchAndAddMetadata c emptyDict (pyInt s) 0 = emptyDict := by
    simp [fetchAndAddMetadata, fetchBook, habort]
  have hfan : fetchAndAddMetadatas c [pyInt s] = (emptyDict, 1, true) := by
    simp [fetchAndAddMetadatas, List.enum, List.enumFrom, fetchMultipleLoop,
      hworker, habort]
  simp [identify, searchAndDownloadMetadatas, hfb, hfan]

theorem C2_abort_starts_first_worker_witness :
    identify
        { abortEvent := true,
          remote := { search := fun _ => none, bookByIsbn := fun _ => none,
                      book := fun _ => none, editions := fun _ => none,
                      seriesPage := fun _ => none } }
        ⟨[], [], [], [("moly", "15331")]⟩
      = (.ok (some abortedMessage, []), 1) :=
  C2_abort_starts_first_worker
    { abortEvent := true,
      remote := { search := fun _ => none, bookByIsbn := fun _ => none,
                  book := fun _ => none, editions := fun _ => none,
                  seriesPage := fun _ => none } }
    ⟨[], [], [], [("moly", "15331")]⟩ "15331" rfl rfl rfl

/-- C2 counterexample: with the cancellation signal pre-set and a direct
`"moly"` identifier, `identify` does return the `"Aborted"` message, but the
fan-out starts ONE worker, not zero — `fetch_multiple` calls
`fetcher.start()` before checking the abort event. -/
theorem C2_abort_starts_first_worker_counterexample :
    identify
        { abortEvent := true,
          remote := { search := fun _ => none, bookByIsbn := fun _ => none,
                      book := fun _ => none, editions := fun _ => none,
                      seriesPage := fun _ => none } }
        ⟨[], [], [], [("moly", "49578")]⟩
      = (.ok (some abortedMessage, []), 1)
    ∧ (identify
        { abortEvent := true,
          remote := { search := fun _ => none, bookByIsbn := fun _ => none,
                      book := fun _ => none, editions := fun _ => none,
                      seriesPage := fun _ => none } }
        ⟨[], [], [], [("moly", "49578")]⟩).2 ≠ 0 := by
  constructor
  · rfl
  · intro hcontra
    simp only [identify, searchAndDownloadMetadatas] at hcontra
    revert hcontra
    decide
